import Mathlib

/-!
Verification of the Kusto (Azure Data Explorer) driver for the Cube.js
semantic layer.  The development shallowly embeds the two classes of
`packages/cubejs-kusto-driver/src/KustoDriver.ts` — the `KustoDriver`
connection/execution adapter and the `KustoQuery`/`KustoFilter` dialect
adapter — as executable Lean definitions, and proves the stated
properties about them.

Modelling conventions:
* JavaScript `undefined`-or-string values are `Option String`; JS
  truthiness of such a value (`undefined` and `""` are falsy) is the
  `truthy` predicate, and `a || b` is `jsOr`.
* Methods that `throw` are embedded as `Except String` results.
* JS runtime values passed as query parameters are the inductive
  `JSValue`; renderings produced by the vendor runtime itself
  (`Number.prototype.toString`, `Date.prototype.toISOString`,
  `JSON.stringify`) are carried as the string they produce, since the
  driver only splices those strings into the query text.
-/

namespace KustoSpec

/-- JS truthiness of an optional string: `undefined` and `""` are falsy. -/
def truthy : Option String → Bool
  | none => false
  | some s => !s.isEmpty

/-- JS `a || b` over optional strings: the first operand when truthy, else the second. -/
def jsOr (a b : Option String) : Option String :=
  if truthy a then a else b

/-! ### Dialect adapter: `KustoQuery` and `KustoFilter` -/

/-- The `GRANULARITY_TO_BIN` lookup table: granularity token to Kusto
time-binning template.  A key lookup on the JS record is embedded as a
chain of string comparisons returning `none` for absent keys. -/
def GRANULARITY_TO_BIN (granularity : String) : Option (String → String) :=
  if granularity = "day" then some (fun date => "bin(" ++ date ++ ", 1d)")
  else if granularity = "week" then some (fun date => "bin(" ++ date ++ ", 7d)")
  else if granularity = "hour" then some (fun date => "bin(" ++ date ++ ", 1h)")
  else if granularity = "minute" then some (fun date => "bin(" ++ date ++ ", 1m)")
  else if granularity = "second" then some (fun date => "bin(" ++ date ++ ", 1s)")
  else if granularity = "month" then some (fun date => "startofmonth(" ++ date ++ ")")
  else if granularity = "quarter" then some (fun date => "startofquarter(" ++ date ++ ")")
  else if granularity = "year" then some (fun date => "startofyear(" ++ date ++ ")")
  else none

/-- Embeds `KustoQuery.timeGroupedColumn`: look up the granularity in
`GRANULARITY_TO_BIN`; throw `Unsupported granularity: <token>` when the
lookup is falsy, otherwise apply the template to the dimension. -/
def timeGroupedColumn (granularity dimension : String) : Except String String :=
  match GRANULARITY_TO_BIN granularity with
  | none => .error ("Unsupported granularity: " ++ granularity)
  | some f => .ok (f dimension)

/-- Embeds `KustoQuery.convertTz`: Kusto gets no timezone conversion; the field
is returned unchanged. -/
def convertTz (field : String) : String :=
  field

/-- Embeds `KustoQuery.subtractInterval`: `datetime_add('second', -1 * interval, date)`. -/
def subtractInterval (date interval : String) : String :=
  "datetime_add('second', -1 * " ++ interval ++ ", " ++ date ++ ")"

/-- Embeds `KustoQuery.addInterval`: `datetime_add('second', interval, date)`. -/
def addInterval (date interval : String) : String :=
  "datetime_add('second', " ++ interval ++ ", " ++ date ++ ")"

/-- Embeds `KustoQuery.timeStampCast`. -/
def timeStampCast (value : String) : String :=
  "todatetime(" ++ value ++ ")"

/-- Embeds `KustoQuery.nowTimestampSql`. -/
def nowTimestampSql : String :=
  "now()"

/-- Embeds `KustoFilter.likeIgnoreCase`: the BaseFilter method receives the
column, the negation flag, the parameter and the match-kind tag; the
framework-supplied `allocateParam` (inherited from `BaseFilter`, outside
this repository) is abstracted as a function argument.  The JS test
`!type` on a string is the emptiness test. -/
def likeIgnoreCase (allocateParam : String → String) (column : String)
    (isNot : Bool) (param : String) (type : String) : String :=
  let paramExpr := allocateParam param
  if type.isEmpty || type = "contains" then
    (if isNot then "not " else "") ++ "contains(tolower(" ++ column ++ "), tolower(" ++ paramExpr ++ "))"
  else if type = "starts" then
    (if isNot then "not " else "") ++ "startswith(tolower(" ++ column ++ "), tolower(" ++ paramExpr ++ "))"
  else if type = "ends" then
    (if isNot then "not " else "") ++ "endswith(tolower(" ++ column ++ "), tolower(" ++ paramExpr ++ "))"
  else
    (if isNot then "not " else "") ++ "has(tolower(" ++ column ++ "), tolower(" ++ paramExpr ++ "))"

/-! ### Driver configuration and constructor -/

/-- The `KustoDriverConfiguration` options bag; every field is optional. -/
structure KustoDriverConfiguration where
  clusterUrl : Option String
  database : Option String
  appId : Option String
  appKey : Option String
  clientId : Option String
  clientSecret : Option String
  authorityId : Option String
  useManagedIdentity : Option Bool
  userManagedIdentityId : Option String
deriving DecidableEq

/-- The environment variables the constructor reads. -/
structure Env where
  KUSTO_CLUSTER_URL : Option String
  KUSTO_DATABASE : Option String
  KUSTO_CLIENT_ID : Option String
  KUSTO_CLIENT_SECRET : Option String
  KUSTO_TENANT_ID : Option String
  KUSTO_USE_MANAGED_IDENTITY : Option String
  KUSTO_USER_MANAGED_IDENTITY_ID : Option String
deriving DecidableEq

/-- Resolution `config.clusterUrl || process.env.KUSTO_CLUSTER_URL`. -/
def resolvedClusterUrl (c : KustoDriverConfiguration) (e : Env) : Option String :=
  jsOr c.clusterUrl e.KUSTO_CLUSTER_URL

/-- Resolution `config.database || process.env.KUSTO_DATABASE`. -/
def resolvedDatabase (c : KustoDriverConfiguration) (e : Env) : Option String :=
  jsOr c.database e.KUSTO_DATABASE

/-- Resolution `config.appId || config.clientId || process.env.KUSTO_CLIENT_ID`. -/
def resolvedAppId (c : KustoDriverConfiguration) (e : Env) : Option String :=
  jsOr c.appId (jsOr c.clientId e.KUSTO_CLIENT_ID)

/-- Resolution `config.appKey || config.clientSecret || process.env.KUSTO_CLIENT_SECRET`. -/
def resolvedAppKey (c : KustoDriverConfiguration) (e : Env) : Option String :=
  jsOr c.appKey (jsOr c.clientSecret e.KUSTO_CLIENT_SECRET)

/-- Resolution `config.authorityId || process.env.KUSTO_TENANT_ID`. -/
def resolvedAuthorityId (c : KustoDriverConfiguration) (e : Env) : Option String :=
  jsOr c.authorityId e.KUSTO_TENANT_ID

/-- The managed-identity flag: an explicit boolean config value wins;
otherwise the flag is set exactly when the environment variable equals
the string literal `true`. -/
def resolveUseManagedIdentity (c : KustoDriverConfiguration) (e : Env) : Bool :=
  match c.useManagedIdentity with
  | some b => b
  | none => e.KUSTO_USE_MANAGED_IDENTITY == some "true"

/-- Resolution `config.userManagedIdentityId || process.env.KUSTO_USER_MANAGED_IDENTITY_ID`. -/
def resolvedUserManagedIdentityId (c : KustoDriverConfiguration) (e : Env) : Option String :=
  jsOr c.userManagedIdentityId e.KUSTO_USER_MANAGED_IDENTITY_ID

/-- The `KustoData.KustoConnectionStringBuilder` produced by the
constructor, remembering which factory made it and with what arguments.
`withTokenCredential` is the ambient `AzureCliCredential` fallback. -/
inductive ConnectionStringBuilder where
  | withUserManagedIdentity (clusterUrl userManagedIdentityId : String)
  | withSystemManagedIdentity (clusterUrl : String)
  | withAadApplicationKeyAuthentication (clusterUrl appId appKey authorityId : String)
  | withTokenCredential (clusterUrl : String)
deriving DecidableEq

/-- The resolved configuration the constructor stores in `this.config`. -/
structure StoredConfig where
  clusterUrl : Option String
  database : Option String
  appId : Option String
  appKey : Option String
  authorityId : Option String
  useManagedIdentity : Bool
  userManagedIdentityId : Option String
deriving DecidableEq

/-- A constructed driver instance: the stored configuration and the
client built from the selected connection string builder. -/
structure KustoDriver where
  config : StoredConfig
  client : ConnectionStringBuilder
deriving DecidableEq

/-- The `this.config` value stored by the constructor. -/
def storedConfig (c : KustoDriverConfiguration) (e : Env) : StoredConfig :=
  ⟨resolvedClusterUrl c e, resolvedDatabase c e, resolvedAppId c e,
   resolvedAppKey c e, resolvedAuthorityId c e,
   resolveUseManagedIdentity c e, resolvedUserManagedIdentityId c e⟩

/-- The `kcsb` selection cascade of the constructor.  Each branch of the
source assigns `some` builder; the `Option` records that the variable is
declared possibly-`undefined` in the source. -/
def selectKcsb (c : KustoDriverConfiguration) (e : Env) : Option ConnectionStringBuilder :=
  if resolveUseManagedIdentity c e then
    if truthy (resolvedUserManagedIdentityId c e) then
      some (.withUserManagedIdentity ((resolvedClusterUrl c e).getD "")
        ((resolvedUserManagedIdentityId c e).getD ""))
    else
      some (.withSystemManagedIdentity ((resolvedClusterUrl c e).getD ""))
  else if truthy (resolvedAppId c e) && truthy (resolvedAppKey c e)
      && truthy (resolvedAuthorityId c e) then
    some (.withAadApplicationKeyAuthentication ((resolvedClusterUrl c e).getD "")
      ((resolvedAppId c e).getD "") ((resolvedAppKey c e).getD "")
      ((resolvedAuthorityId c e).getD ""))
  else
    some (.withTokenCredential ((resolvedClusterUrl c e).getD ""))

/-- The `KustoDriver` constructor: resolve the configuration, fail when
the cluster URL or the database is falsy, select the connection string
builder, fail when none was selected, and otherwise return the
constructed instance. -/
def constructorModel (c : KustoDriverConfiguration) (e : Env) : Except String KustoDriver :=
  if !truthy (resolvedClusterUrl c e) || !truthy (resolvedDatabase c e) then
    .error "Please specify Kusto connection parameters (clusterUrl, database)"
  else
    match selectKcsb c e with
    | none => .error "No valid Kusto authentication method configured."
    | some kcsb => .ok ⟨storedConfig c e, kcsb⟩

/-- Embeds `KustoDriver.readOnly`. -/
def readOnly (_self : KustoDriver) : Bool :=
  true

/-- Embeds `KustoDriver.createSchemaIfNotExists`: unconditionally throws. -/
def createSchemaIfNotExists (_self : KustoDriver) (_schemaName : String) : Except String Unit :=
  .error "Unable to create schema, Kusto does not support it"

/-! ### `KustoDriver.query`: parameter substitution and routing -/

/-- A JS runtime value passed in the `values` array.  `num`, `date` and
`obj` carry the rendering the vendor runtime produces for them
(`Number.prototype.toString`, `Date.prototype.toISOString`,
`JSON.stringify` respectively); the driver only splices that string. -/
inductive JSValue where
  | jsNull
  | jsUndefined
  | str (s : String)
  | num (rendered : String)
  | bool (b : Bool)
  | date (isoString : String)
  | obj (jsonString : String)
deriving DecidableEq

/-- Character-level worker for doubling single quotes. -/
def escapeQuoteChars : List Char → List Char
  | [] => []
  | c :: rest =>
    if c = '\'' then '\'' :: '\'' :: escapeQuoteChars rest
    else c :: escapeQuoteChars rest

/-- Embeds `value.replace(/'/g, "''")`: double every single quote. -/
def escapeSingleQuotes (s : String) : String :=
  ⟨escapeQuoteChars s.data⟩

/-- The per-type rendering of one substituted value, following the
type dispatch in `KustoDriver.query`. -/
def renderValue : JSValue → String
  | .jsNull => "null"
  | .jsUndefined => "null"
  | .str s => "'" ++ escapeSingleQuotes s ++ "'"
  | .num rendered => rendered
  | .bool b => if b then "true" else "false"
  | .date isoString => "datetime('" ++ isoString ++ "')"
  | .obj jsonString => "'" ++ escapeSingleQuotes jsonString ++ "'"

/-- The `query.replace(/\?/g, ...)` loop: walk the characters, replace
each `?` with the rendering of the next value while values remain, and
leave later `?` occurrences unchanged once values run out (the source
increments `paramIndex` only when it consumes a value). -/
def substituteChars : List Char → Nat → List JSValue → List Char
  | [], _, _ => []
  | c :: rest, i, vs =>
    if c = '?' then
      if h : i < vs.length then
        (renderValue vs[i]).data ++ substituteChars rest (i + 1) vs
      else
        '?' :: substituteChars rest i vs
    else
      c :: substituteChars rest i vs

/-- Positional-parameter substitution over a whole query string. -/
def substituteParams (q : String) (values : List JSValue) : String :=
  ⟨substituteChars q.data 0 values⟩

/-- Which client call `KustoDriver.query` dispatches to. -/
inductive ExecPath where
  | executeMgmt
  | executeQuery
deriving DecidableEq

/-- The observable outcome of `KustoDriver.query`: the executed text and
the client call it went to. -/
structure ExecutedCall where
  text : String
  path : ExecPath
deriving DecidableEq

/-- JS `String.prototype.trimStart`: drop leading whitespace. -/
def trimStart (s : String) : String :=
  ⟨s.data.dropWhile Char.isWhitespace⟩

/-- JS `s.startsWith(p)`. -/
def jsStartsWith (s p : String) : Bool :=
  p.data.isPrefixOf s.data

/-- Embeds `KustoDriver.query`: substitute positional parameters when a
non-empty `values` array is given, then route by whether the text,
after `trimStart`, starts with `.`. -/
def queryMethod (q : String) (values : List JSValue) : ExecutedCall :=
  let text := if values.length > 0 then substituteParams q values else q
  ⟨text, if jsStartsWith (trimStart text) "." then .executeMgmt else .executeQuery⟩

/-- Follows the claim's words, for comparison with `substituteChars`:
split the text at every `?` occurrence into the segments between them
(n occurrences give n + 1 segments). -/
def splitOnPlaceholder : List Char → List (List Char)
  | [] => [[]]
  | c :: rest =>
    if c = '?' then [] :: splitOnPlaceholder rest
    else
      match splitOnPlaceholder rest with
      | [] => [[c]]
      | p :: ps => (c :: p) :: ps

/-- Follows the claim's words: rejoin the segments, putting in place of
the i-th `?` occurrence the rendering of `values[i]` when `i` is in
range and the `?` itself otherwise. -/
def joinWithValues : List (List Char) → Nat → List JSValue → List Char
  | [], _, _ => []
  | [p], _, _ => p
  | p :: q :: ps, i, vs =>
    p ++ (if h : i < vs.length then (renderValue vs[i]).data else ['?'])
      ++ joinWithValues (q :: ps) (i + 1) vs

/-- The claim-side statement of parameter substitution: replace the i-th
`?` occurrence of the query, left to right, with the rendering of the
i-th value, leaving occurrences beyond the number of values unchanged. -/
def specSubstitute (q : String) (values : List JSValue) : String :=
  ⟨joinWithValues (splitOnPlaceholder q.data) 0 values⟩

/-! ### Theorems -/

lemma string_empty_append (s : String) : "" ++ s = s := rfl

/-- Claim C1: for every granularity token and dimension expression,
`timeGroupedColumn` returns exactly the documented native template —
`bin(e, 1d)` for day, `bin(e, 7d)` for week, `bin(e, 1h)` for hour,
`bin(e, 1m)` for minute, `bin(e, 1s)` for second, `startofmonth(e)` for
month, `startofquarter(e)` for quarter, `startofyear(e)` for year — and
for any token outside these eight it fails with the error
`Unsupported granularity: <token>`. -/
theorem timeGroupedColumn_templates (e : String) :
    timeGroupedColumn "day" e = .ok ("bin(" ++ e ++ ", 1d)") ∧
    timeGroupedColumn "week" e = .ok ("bin(" ++ e ++ ", 7d)") ∧
    timeGroupedColumn "hour" e = .ok ("bin(" ++ e ++ ", 1h)") ∧
    timeGroupedColumn "minute" e = .ok ("bin(" ++ e ++ ", 1m)") ∧
    timeGroupedColumn "second" e = .ok ("bin(" ++ e ++ ", 1s)") ∧
    timeGroupedColumn "month" e = .ok ("startofmonth(" ++ e ++ ")") ∧
    timeGroupedColumn "quarter" e = .ok ("startofquarter(" ++ e ++ ")") ∧
    timeGroupedColumn "year" e = .ok ("startofyear(" ++ e ++ ")") ∧
    ∀ g, g ∉ (["day", "week", "hour", "minute", "second", "month", "quarter", "year"] : List String) →
      timeGroupedColumn g e = .error ("Unsupported granularity: " ++ g) := by
  refine ⟨rfl, rfl, rfl, rfl, rfl, rfl, rfl, rfl, ?_⟩
  intro g hg
  simp only [List.mem_cons, List.not_mem_nil, or_false, not_or] at hg
  obtain ⟨h1, h2, h3, h4, h5, h6, h7, h8⟩ := hg
  simp [timeGroupedColumn, GRANULARITY_TO_BIN, h1, h2, h3, h4, h5, h6, h7, h8]

/-- Claim C1 witness: a concrete unsupported token produces the error. -/
theorem timeGroupedColumn_templates_witness :
    timeGroupedColumn "fortnight" "ts" = .error "Unsupported granularity: fortnight" := by
  have h := (timeGroupedColumn_templates "ts").2.2.2.2.2.2.2.2 "fortnight" (by decide)
  exact h.trans (congrArg Except.error (by decide))

/-- Claim C4: for every column, parameter and match-kind tag among
contains/starts/ends/has, `likeIgnoreCase` produces the corresponding
native predicate with `tolower` on both the column and the allocated
parameter expression, and negation prepends `not ` to the un-negated
result. -/
theorem likeIgnoreCase_predicates (allocateParam : String → String) (column param : String) :
    likeIgnoreCase allocateParam column false param "contains"
      = "contains(tolower(" ++ column ++ "), tolower(" ++ allocateParam param ++ "))" ∧
    likeIgnoreCase allocateParam column false param "starts"
      = "startswith(tolower(" ++ column ++ "), tolower(" ++ allocateParam param ++ "))" ∧
    likeIgnoreCase allocateParam column false param "ends"
      = "endswith(tolower(" ++ column ++ "), tolower(" ++ allocateParam param ++ "))" ∧
    likeIgnoreCase allocateParam column false param "has"
      = "has(tolower(" ++ column ++ "), tolower(" ++ allocateParam param ++ "))" ∧
    ∀ type, likeIgnoreCase allocateParam column true param type
      = "not " ++ likeIgnoreCase allocateParam column false param type := by
  refine ⟨rfl, rfl, rfl, rfl, ?_⟩
  intro type
  simp only [likeIgnoreCase]
  split_ifs <;> simp_all [string_empty_append, ← String.append_assoc]

/-- Claim C5: `addInterval` and `subtractInterval` both use the native
`datetime_add` with the `second` unit, and subtraction negates the
magnitude. -/
theorem interval_arithmetic_native (d i : String) :
    addInterval d i = "datetime_add('second', " ++ i ++ ", " ++ d ++ ")" ∧
    subtractInterval d i = "datetime_add('second', -1 * " ++ i ++ ", " ++ d ++ ")" :=
  ⟨rfl, rfl⟩

/-- Claim C6: `readOnly` returns true on every driver instance, and
`createSchemaIfNotExists` fails with the descriptive message for every
schema name, performing no other action. -/
theorem readOnly_true_and_createSchema_fails (d : KustoDriver) :
    readOnly d = true ∧
    ∀ s, createSchemaIfNotExists d s
      = .error "Unable to create schema, Kusto does not support it" :=
  ⟨rfl, fun _ => rfl⟩

/-- Claim C8: timezone conversion is the identity on every field
expression. -/
theorem convertTz_identity (f : String) : convertTz f = f :=
  rfl

lemma truthy_jsOr (a b : Option String) : truthy (jsOr a b) = (truthy a || truthy b) := by
  unfold jsOr
  by_cases h : truthy a <;> simp [h]

lemma selectKcsb_eq_some (c : KustoDriverConfiguration) (e : Env) :
    ∃ b, selectKcsb c e = some b := by
  unfold selectKcsb
  split_ifs <;> exact ⟨_, rfl⟩

/-- Claim C3: when neither the config nor the environment supplies a
non-empty cluster URL, or neither supplies a non-empty database name,
construction fails with the connection-parameters error (and hence no
client is built); when both are supplied that error is never raised. -/
theorem constructor_requires_connection_params (c : KustoDriverConfiguration) (e : Env) :
    ((¬ (truthy c.clusterUrl = true ∨ truthy e.KUSTO_CLUSTER_URL = true)
      ∨ ¬ (truthy c.database = true ∨ truthy e.KUSTO_DATABASE = true)) →
      constructorModel c e
        = .error "Please specify Kusto connection parameters (clusterUrl, database)") ∧
    ((truthy c.clusterUrl = true ∨ truthy e.KUSTO_CLUSTER_URL = true) →
     (truthy c.database = true ∨ truthy e.KUSTO_DATABASE = true) →
      constructorModel c e
        ≠ .error "Please specify Kusto connection parameters (clusterUrl, database)") := by
  constructor
  · intro h
    rcases h with h | h <;>
      simp only [not_or, Bool.not_eq_true] at h <;>
      simp [constructorModel, resolvedClusterUrl, resolvedDatabase, truthy_jsOr, h.1, h.2]
  · intro h1 h2 hcontra
    have hcu : truthy (resolvedClusterUrl c e) = true := by
      rw [resolvedClusterUrl, truthy_jsOr]
      rcases h1 with h | h <;> simp [h]
    have hdb : truthy (resolvedDatabase c e) = true := by
      rw [resolvedDatabase, truthy_jsOr]
      rcases h2 with h | h <;> simp [h]
    obtain ⟨b, hb⟩ := selectKcsb_eq_some c e
    simp [constructorModel, hcu, hdb, hb] at hcontra

/-- Claim C3 witness: the empty configuration fails with the
connection-parameters error. -/
theorem constructor_requires_connection_params_witness :
    constructorModel ⟨none, none, none, none, none, none, none, none, none⟩
        ⟨none, none, none, none, none, none, none⟩
      = .error "Please specify Kusto connection parameters (clusterUrl, database)" :=
  (constructor_requires_connection_params
    ⟨none, none, none, none, none, none, none, none, none⟩
    ⟨none, none, none, none, none, none, none⟩).1 (by decide)

/-- Claim C2: the constructor selects exactly one authentication
strategy — with the managed-identity flag set, user-assigned identity
when an identity id is supplied and system-assigned otherwise; with the
flag unset, application key/secret exactly when app id, app key and
authority id are all present, and the ambient-credential fallback
otherwise — and the flag comes from an explicit boolean config value or,
absent one, from the environment variable equalling `true`. -/
theorem constructor_auth_strategy (c : KustoDriverConfiguration) (e : Env)
    (hc : truthy (resolvedClusterUrl c e) = true)
    (hd : truthy (resolvedDatabase c e) = true) :
    (∀ b, c.useManagedIdentity = some b → resolveUseManagedIdentity c e = b) ∧
    (c.useManagedIdentity = none →
      (resolveUseManagedIdentity c e = true ↔ e.KUSTO_USE_MANAGED_IDENTITY = some "true")) ∧
    (resolveUseManagedIdentity c e = true →
      (truthy (resolvedUserManagedIdentityId c e) = true →
        constructorModel c e = .ok ⟨storedConfig c e,
          .withUserManagedIdentity ((resolvedClusterUrl c e).getD "")
            ((resolvedUserManagedIdentityId c e).getD "")⟩) ∧
      (truthy (resolvedUserManagedIdentityId c e) = false →
        constructorModel c e = .ok ⟨storedConfig c e,
          .withSystemManagedIdentity ((resolvedClusterUrl c e).getD "")⟩)) ∧
    (resolveUseManagedIdentity c e = false →
      ((truthy (resolvedAppId c e) && truthy (resolvedAppKey c e)
          && truthy (resolvedAuthorityId c e)) = true →
        constructorModel c e = .ok ⟨storedConfig c e,
          .withAadApplicationKeyAuthentication ((resolvedClusterUrl c e).getD "")
            ((resolvedAppId c e).getD "") ((resolvedAppKey c e).getD "")
            ((resolvedAuthorityId c e).getD "")⟩) ∧
      ((truthy (resolvedAppId c e) && truthy (resolvedAppKey c e)
          && truthy (resolvedAuthorityId c e)) = false →
        constructorModel c e = .ok ⟨storedConfig c e,
          .withTokenCredential ((resolvedClusterUrl c e).getD "")⟩)) := by
  refine ⟨?_, ?_, ?_, ?_⟩
  · intro b hb
    simp [resolveUseManagedIdentity, hb]
  · intro hnone
    simp [resolveUseManagedIdentity, hnone]
  · intro hflag
    constructor <;> intro hid <;>
      simp [constructorModel, hc, hd, selectKcsb, hflag, hid]
  · intro hflag
    constructor <;> intro hcred <;>
      simp [constructorModel, hc, hd, selectKcsb, hflag, hcred]

/-- Claim C2 witness: with the managed-identity flag set in the config
and an identity id supplied, the user-assigned managed identity builder
is selected. -/
theorem constructor_auth_strategy_witness :
    constructorModel
        ⟨some "https://cluster.kusto.windows.net", some "db1", none, none, none, none, none,
          some true, some "mid-1"⟩
        ⟨none, none, none, none, none, none, none⟩
      = .ok ⟨⟨some "https://cluster.kusto.windows.net", some "db1", none, none, none,
          true, some "mid-1"⟩,
          .withUserManagedIdentity "https://cluster.kusto.windows.net" "mid-1"⟩ := by
  have h := ((constructor_auth_strategy
    ⟨some "https://cluster.kusto.windows.net", some "db1", none, none, none, none, none,
      some true, some "mid-1"⟩
    ⟨none, none, none, none, none, none, none⟩
    (by decide) (by decide)).2.2.1 (by decide)).1 (by decide)
  exact h.trans (congrArg Except.ok (by decide))

/-- Claim C9: once the cluster URL and the database are supplied,
construction always succeeds — some connection builder is selected for
every combination of credential fields, so the
`No valid Kusto authentication method configured.` branch is
unreachable. -/
theorem constructor_never_lacks_credentials (c : KustoDriverConfiguration) (e : Env)
    (hc : truthy (resolvedClusterUrl c e) = true)
    (hd : truthy (resolvedDatabase c e) = true) :
    (∃ d, constructorModel c e = .ok d) ∧
    constructorModel c e ≠ .error "No valid Kusto authentication method configured." := by
  obtain ⟨b, hb⟩ := selectKcsb_eq_some c e
  have hok : constructorModel c e = .ok ⟨storedConfig c e, b⟩ := by
    simp [constructorModel, hc, hd, hb]
  exact ⟨⟨_, hok⟩, by simp [hok]⟩

/-- Claim C9 witness: a configuration with no credential fields at all
still constructs successfully. -/
theorem constructor_never_lacks_credentials_witness :
    (∃ d, constructorModel
        ⟨some "https://cluster.kusto.windows.net", some "db1", none, none, none, none, none,
          none, none⟩
        ⟨none, none, none, none, none, none, none⟩ = .ok d) ∧
    constructorModel
        ⟨some "https://cluster.kusto.windows.net", some "db1", none, none, none, none, none,
          none, none⟩
        ⟨none, none, none, none, none, none, none⟩
      ≠ .error "No valid Kusto authentication method configured." :=
  constructor_never_lacks_credentials
    ⟨some "https://cluster.kusto.windows.net", some "db1", none, none, none, none, none,
      none, none⟩
    ⟨none, none, none, none, none, none, none⟩
    (by decide) (by decide)

lemma jsStartsWith_dot_iff (s : String) :
    jsStartsWith s "." = true ↔ s.data.head? = some '.' := by
  have hd : ("." : String).data = ['.'] := rfl
  unfold jsStartsWith
  rw [hd]
  cases s.data with
  | nil => simp
  | cons c cs =>
    rw [List.isPrefixOf_cons₂]
    simp only [List.isPrefixOf_nil_left, Bool.and_true, beq_iff_eq, List.head?_cons,
      Option.some.injEq]
    exact eq_comm

lemma queryPath_iff (t : String) :
    (if jsStartsWith (trimStart t) "." then ExecPath.executeMgmt else ExecPath.executeQuery)
      = ExecPath.executeMgmt ↔ (trimStart t).data.head? = some '.' := by
  by_cases h : jsStartsWith (trimStart t) "." = true
  · simp [h, (jsStartsWith_dot_iff _).mp h]
  · have h2 : ¬ (trimStart t).data.head? = some '.' := by
      rw [← jsStartsWith_dot_iff]
      exact h
    simp [h, h2]

/-- Claim C7: the query operation dispatches to the management-command
path exactly when the executed text, after stripping leading whitespace,
begins with the character `.`, and to the plain query path otherwise. -/
theorem query_routing_by_leading_dot (q : String) (values : List JSValue) :
    (queryMethod q values).path = ExecPath.executeMgmt ↔
      (trimStart (queryMethod q values).text).data.head? = some '.' := by
  have h := queryPath_iff (if values.length > 0 then substituteParams q values else q)
  simpa [queryMethod] using h

lemma splitOnPlaceholder_ne_nil (l : List Char) : splitOnPlaceholder l ≠ [] := by
  cases l with
  | nil => simp [splitOnPlaceholder]
  | cons c rest =>
    simp only [splitOnPlaceholder]
    split
    · simp
    · split <;> simp

lemma splitOnPlaceholder_exists_cons (l : List Char) :
    ∃ p ps, splitOnPlaceholder l = p :: ps := by
  cases hs : splitOnPlaceholder l with
  | nil => exact absurd hs (splitOnPlaceholder_ne_nil l)
  | cons p ps => exact ⟨p, ps, rfl⟩

lemma splitOnPlaceholder_cons_q (rest : List Char) :
    splitOnPlaceholder ('?' :: rest) = [] :: splitOnPlaceholder rest := by
  simp [splitOnPlaceholder]

lemma splitOnPlaceholder_cons_ne (c : Char) (rest : List Char) (hc : ¬ c = '?')
    (p : List Char) (ps : List (List Char)) (hsplit : splitOnPlaceholder rest = p :: ps) :
    splitOnPlaceholder (c :: rest) = (c :: p) :: ps := by
  simp [splitOnPlaceholder, hc, hsplit]

lemma substituteChars_excess (l : List Char) (vs : List JSValue) :
    ∀ i, vs.length ≤ i → substituteChars l i vs = l := by
  induction l with
  | nil => intro i _; rfl
  | cons c rest ih =>
    intro i h
    simp only [substituteChars]
    by_cases hc : c = '?'
    · rw [if_pos hc, dif_neg (by omega), ih i h, hc]
    · rw [if_neg hc, ih i h]

lemma joinWithValues_excess (l : List Char) (vs : List JSValue) :
    ∀ i, vs.length ≤ i → joinWithValues (splitOnPlaceholder l) i vs = l := by
  induction l with
  | nil => intro i _; rfl
  | cons c rest ih =>
    intro i h
    obtain ⟨p, ps, hsplit⟩ := splitOnPlaceholder_exists_cons rest
    by_cases hc : c = '?'
    · subst hc
      rw [splitOnPlaceholder_cons_q, hsplit]
      simp only [joinWithValues]
      rw [dif_neg (by omega), ← hsplit, ih (i + 1) (by omega)]
      simp
    · rw [splitOnPlaceholder_cons_ne c rest hc p ps hsplit]
      have hrest : joinWithValues (p :: ps) i vs = rest := by
        rw [← hsplit]
        exact ih i h
      cases ps with
      | nil =>
        simp only [joinWithValues] at hrest ⊢
        rw [hrest]
      | cons qq qs =>
        simp only [joinWithValues] at hrest ⊢
        rw [← hrest]
        simp

lemma substituteChars_eq_joinWithValues (l : List Char) (vs : List JSValue) :
    ∀ i, substituteChars l i vs = joinWithValues (splitOnPlaceholder l) i vs := by
  induction l with
  | nil => intro i; rfl
  | cons c rest ih =>
    intro i
    obtain ⟨p, ps, hsplit⟩ := splitOnPlaceholder_exists_cons rest
    by_cases hc : c = '?'
    · subst hc
      rw [splitOnPlaceholder_cons_q, hsplit]
      simp only [substituteChars, if_pos rfl, joinWithValues]
      by_cases hi : i < vs.length
      · rw [dif_pos hi, dif_pos hi, ← hsplit, ← ih (i + 1)]
        simp
      · rw [dif_neg hi, dif_neg hi, ← hsplit,
          joinWithValues_excess rest vs (i + 1) (by omega),
          substituteChars_excess rest vs i (by omega)]
        simp
    · rw [splitOnPlaceholder_cons_ne c rest hc p ps hsplit]
      simp only [substituteChars, if_neg hc]
      have hrest : substituteChars rest i vs = joinWithValues (p :: ps) i vs := by
        rw [← hsplit]
        exact ih i
      cases ps with
      | nil =>
        simp only [joinWithValues] at hrest ⊢
        rw [hrest]
      | cons qq qs =>
        simp only [joinWithValues] at hrest ⊢
        rw [hrest]
        simp

lemma substituteParams_eq_spec (q : String) (vs : List JSValue) :
    substituteParams q vs = specSubstitute q vs :=
  congrArg String.mk (substituteChars_eq_joinWithValues q.data vs 0)

lemma specSubstitute_nil (q : String) : specSubstitute q [] = q := by
  unfold specSubstitute
  rw [joinWithValues_excess q.data [] 0 (by simp)]

/-- Claim C10: the executed text of `query(q, values)` is obtained from
`q` by replacing the i-th `?` occurrence, left to right, with the
rendering of `values[i]` — null/undefined as the literal `null`, strings
single-quoted with embedded quotes doubled, numbers and booleans as
their literals, dates as `datetime(<ISO string>)`, other objects
JSON-stringified and single-quoted — occurrences beyond the number of
values staying unchanged, and with an empty values array the text is
executed verbatim. -/
theorem query_parameter_substitution (q : String) (values : List JSValue) :
    (queryMethod q values).text = specSubstitute q values ∧
    (queryMethod q []).text = q ∧
    renderValue JSValue.jsNull = "null" ∧
    renderValue JSValue.jsUndefined = "null" ∧
    (∀ s, renderValue (JSValue.str s) = "'" ++ escapeSingleQuotes s ++ "'") ∧
    (∀ n, renderValue (JSValue.num n) = n) ∧
    (∀ b, renderValue (JSValue.bool b) = if b then "true" else "false") ∧
    (∀ iso, renderValue (JSValue.date iso) = "datetime('" ++ iso ++ "')") ∧
    (∀ j, renderValue (JSValue.obj j) = "'" ++ escapeSingleQuotes j ++ "'") := by
  refine ⟨?_, ?_, rfl, rfl, fun _ => rfl, fun _ => rfl, fun _ => rfl, fun _ => rfl, fun _ => rfl⟩
  · by_cases h : values.length > 0
    · simp [queryMethod, h, substituteParams_eq_spec]
    · have hnil : values = [] := List.eq_nil_of_length_eq_zero (by omega)
      subst hnil
      simp [queryMethod, specSubstitute_nil]
  · simp [queryMethod]

end KustoSpec
